import Mathlib

/-!
Shallow embedding of the jobu batch scheduler core (worker executor, cron
dispatcher, queue dispatcher, SQLite transaction context) together with
theorems settling the specification claims.

Sources embedded: src/worker/executor.py, src/dispatcher/main.py,
src/dispatcher/queue/main.py, src/database/sqlite3/connection.py and the
worker/dispatcher SQL query files (the latter are not shipped under src/,
so they are modelled from the specification, corroborated by the code
comments in executor.py and the assertions in src/test/worker_test.py).

Machine times are modelled as `Int` seconds; JSON parameter objects as
association lists `List (String × Nat)`.
-/

namespace Jobu

/-- Execution status column, from the spec state machine and the status
literals used throughout the source (PENDING, RUNNING, SUCCESS, FAILED,
TIMEOUT). -/
inductive Status where
  | pending
  | running
  | success
  | failed
  | timeout
deriving DecidableEq, Repr

/-- Row of the `job_executions` table (spec section 3 and the columns read
and written by src/worker/executor.py and src/dispatcher/main.py). -/
structure ExecutionRow where
  id : Nat
  job_id : Option Nat
  scheduled_time : Int
  status : Status
  started_at : Option Int
  finished_at : Option Int
  retry_count : Nat
  error_message : Option String
  result : Option String
deriving DecidableEq, Repr

/-- Hydrated cron definition, from src/dispatcher/model/dispatcher.py
(CronJob) restricted to the fields the dispatcher logic reads. -/
structure CronJob where
  id : Nat
  name : String
  cron_expression : String
  handler_name : String
  handler_params : Option String
  is_enabled : Bool
  allow_overlap : Bool
  max_retry : Nat
  timeout_seconds : Nat
deriving DecidableEq, Repr

/-- Claimed execution info handed to the executor; field set taken from the
JobInfo constructions in src/worker/main.py and src/test/worker_test.py
(the re-exported worker.model JobInfo carries `handler_params`). -/
structure JobInfo where
  id : Nat
  job_id : Nat
  scheduled_time : Int
  retry_count : Nat
  job_name : String
  handler_name : String
  handler_params : Option String
  max_retry : Nat
  timeout_seconds : Nat
deriving DecidableEq, Repr

namespace Queries

/-- Modelled from the spec: SQL query `claim_execution` of
worker/sql/worker.sql, which is absent from src/. Spec section 4.6: an
UPDATE that sets status RUNNING and started_at = now WHERE id matches AND
status is PENDING; it returns the number of affected rows. -/
def claim_execution (now : Int) (execution_id : Nat) (row : ExecutionRow) :
    ExecutionRow × Nat :=
  if row.id = execution_id ∧ row.status = Status.pending then
    ({ row with status := Status.running, started_at := some now }, 1)
  else
    (row, 0)

/-- Modelled from the spec: SQL query `complete_execution` of
worker/sql/worker.sql, absent from src/. Spec section 4.6: transition to
SUCCESS with finished_at = now and the serialized result. -/
def complete_execution (now : Int) (execution_id : Nat) (result : Option String)
    (row : ExecutionRow) : ExecutionRow :=
  if row.id = execution_id then
    { row with status := Status.success, finished_at := some now, result := result }
  else
    row

/-- Modelled from the spec: SQL query `fail_execution` of
worker/sql/worker.sql, absent from src/. It writes status FAILED,
finished_at and error_message, and increments retry_count: the comment at
src/worker/executor.py line 123 states the increment happens here, and
src/test/worker_test.py asserts retry_count = 1 after one failure. -/
def fail_execution (now : Int) (execution_id : Nat) (error_message : String)
    (row : ExecutionRow) : ExecutionRow :=
  if row.id = execution_id then
    { row with status := Status.failed, finished_at := some now,
               error_message := some error_message,
               retry_count := row.retry_count + 1 }
  else
    row

/-- Modelled from the spec: SQL query `timeout_execution` of
worker/sql/worker.sql, absent from src/. It writes status TIMEOUT,
finished_at and a "timed out" error message, and increments retry_count
(comment at src/worker/executor.py line 134; src/test/worker_test.py
asserts retry_count = 1 and an error message containing "timed out"). -/
def timeout_execution (now : Int) (execution_id : Nat) (row : ExecutionRow) :
    ExecutionRow :=
  if row.id = execution_id then
    { row with status := Status.timeout, finished_at := some now,
               error_message := some "timed out",
               retry_count := row.retry_count + 1 }
  else
    row

/-- Modelled from the spec: SQL query `reset_to_pending` of
worker/sql/worker.sql, absent from src/. Spec section 4.7: the
back-transition sets status PENDING and preserves the diagnostic columns
(src/test/worker_test.py observes retry_count preserved and status
PENDING). -/
def reset_to_pending (execution_id : Nat) (row : ExecutionRow) : ExecutionRow :=
  if row.id = execution_id then
    { row with status := Status.pending }
  else
    row

end Queries

namespace Executor

/-- From src/worker/executor.py, Executor._fail_execution (lines 117-126):
write FAILED through `fail_execution`, then, when
current_retry + 1 < max_retry, reset the row to PENDING. -/
def _fail_execution (now : Int) (execution_id : Nat) (error_message : String)
    (max_retry current_retry : Nat) (row : ExecutionRow) : ExecutionRow :=
  let row1 := Queries.fail_execution now execution_id error_message row
  if current_retry + 1 < max_retry then
    Queries.reset_to_pending execution_id row1
  else
    row1

/-- From src/worker/executor.py, Executor._timeout_execution (lines
128-137): write TIMEOUT through `timeout_execution`, then, when
current_retry + 1 < max_retry, reset the row to PENDING. -/
def _timeout_execution (now : Int) (execution_id : Nat)
    (max_retry current_retry : Nat) (row : ExecutionRow) : ExecutionRow :=
  let row1 := Queries.timeout_execution now execution_id row
  if current_retry + 1 < max_retry then
    Queries.reset_to_pending execution_id row1
  else
    row1

/-- Environment oracle for one run of Executor.execute: which of the
outcomes of steps 2-4 of src/worker/executor.py occurs (handler registry
lookup, parameter deserialization, and the handler invocation under
asyncio.wait_for). -/
inductive HandlerBehavior where
  | notFound
  | badParams
  | ok (result : Option String)
  | timesOut
  | raises (msg : String)
deriving DecidableEq, Repr

/-- From src/worker/executor.py, Executor.execute (lines 31-101), with the
handler environment abstracted into `HandlerBehavior`. Returns the row
after the call, the boolean result of execute, and whether the handler was
invoked. A claim affecting 0 rows returns False at once (lines 45-48). -/
def execute (now : Int) (behavior : HandlerBehavior) (job : JobInfo)
    (row : ExecutionRow) : ExecutionRow × Bool × Bool :=
  let claimres := Queries.claim_execution now job.id row
  if claimres.2 > 0 then
    match behavior with
    | HandlerBehavior.notFound =>
        (_fail_execution now job.id "Handler not found" job.max_retry job.retry_count claimres.1,
         false, false)
    | HandlerBehavior.badParams =>
        (_fail_execution now job.id "Invalid handler_params" job.max_retry job.retry_count claimres.1,
         false, false)
    | HandlerBehavior.ok res =>
        (Queries.complete_execution now job.id res claimres.1, true, true)
    | HandlerBehavior.timesOut =>
        (_timeout_execution now job.id job.max_retry job.retry_count claimres.1,
         false, true)
    | HandlerBehavior.raises msg =>
        (_fail_execution now job.id msg job.max_retry job.retry_count claimres.1,
         false, true)
  else
    (claimres.1, false, false)

end Executor

/-- Sequential interleaving of n workers each performing the conditional
claim UPDATE of Queries.claim_execution on the same row. The database
serializes the writers (BEGIN IMMEDIATE transactions), so a concurrent
race is an arbitrary order of these atomic updates. Returns the final row
and how many claim attempts affected a row. -/
def claimRace (now : Int) (execution_id : Nat) : Nat → ExecutionRow → ExecutionRow × Nat
  | 0, row => (row, 0)
  | n + 1, row =>
      let first := Queries.claim_execution now execution_id row
      let rest := claimRace now execution_id n first.1
      (rest.1, (if first.2 > 0 then 1 else 0) + rest.2)

theorem claimRace_not_pending (now : Int) (eid n : Nat) (row : ExecutionRow)
    (h : row.status ≠ Status.pending) :
    claimRace now eid n row = (row, 0) := by
  induction n with
  | zero => rfl
  | succ n ih =>
      have hc : ¬(row.id = eid ∧ row.status = Status.pending) := fun hc => h hc.2
      simp [claimRace, Queries.claim_execution, hc, ih]

/-- Concrete PENDING execution row used by the witnesses. -/
def sampleRow : ExecutionRow :=
  { id := 1, job_id := some 7, scheduled_time := 0, status := Status.pending,
    started_at := none, finished_at := none, retry_count := 0,
    error_message := none, result := none }

/-- Concrete claimed row (sampleRow after a successful claim at time 0). -/
def sampleRunningRow : ExecutionRow :=
  { sampleRow with status := Status.running, started_at := some 0 }

/-- Concrete JobInfo used by the witnesses. -/
def sampleJobInfo : JobInfo :=
  { id := 1, job_id := 7, scheduled_time := 0, retry_count := 0,
    job_name := "sample", handler_name := "sample", handler_params := none,
    max_retry := 3, timeout_seconds := 10 }

/-- Claim C1: the claim of an execution row is an atomic conditional update
from PENDING to RUNNING: among n concurrent claim attempts on the same
PENDING row exactly one affects a row and the row transitions to RUNNING
once; a worker whose claim affects 0 rows returns False from
Executor.execute without invoking the handler and without writing any
status, leaving the row untouched. -/
theorem claim_C1_atomic_claim (now : Int) (eid n : Nat) (row : ExecutionRow)
    (hid : row.id = eid) (hp : row.status = Status.pending) (hn : 1 ≤ n) :
    (claimRace now eid n row).2 = 1 ∧
    (claimRace now eid n row).1 =
      { row with status := Status.running, started_at := some now } ∧
    ∀ (b : Executor.HandlerBehavior) (job : JobInfo) (r : ExecutionRow),
      r.status ≠ Status.pending →
      Executor.execute now b job r = (r, false, false) := by
  obtain ⟨m, rfl⟩ : ∃ m, n = m + 1 := ⟨n - 1, by omega⟩
  have hloser : ∀ (b : Executor.HandlerBehavior) (job : JobInfo) (r : ExecutionRow),
      r.status ≠ Status.pending →
      Executor.execute now b job r = (r, false, false) := by
    intro b job r hr
    have hc : ¬(r.id = job.id ∧ r.status = Status.pending) := fun hc => hr hc.2
    simp [Executor.execute, Queries.claim_execution, hc]
  refine ⟨?_, ?_, hloser⟩ <;>
  · have hwin : Queries.claim_execution now eid row =
        ({ row with status := Status.running, started_at := some now }, 1) := by
      simp [Queries.claim_execution, hid, hp]
    have hrest := claimRace_not_pending now eid m
      { row with status := Status.running, started_at := some now } (by simp)
    simp [claimRace, hwin, hrest]

/-- Witness for claim C1 at a concrete PENDING row and three racing
workers. -/
theorem claim_C1_witness :
    sampleRow.id = 1 ∧ sampleRow.status = Status.pending ∧ (1:Nat) ≤ 3 ∧
    (claimRace 0 1 3 sampleRow).2 = 1 ∧
    (claimRace 0 1 3 sampleRow).1 =
      { sampleRow with status := Status.running, started_at := some 0 } ∧
    Executor.execute 0 (Executor.HandlerBehavior.raises "x") sampleJobInfo
      sampleRunningRow = (sampleRunningRow, false, false) := by
  refine ⟨rfl, rfl, by decide, ?_, ?_, ?_⟩
  · exact (claim_C1_atomic_claim 0 1 3 sampleRow rfl rfl (by decide)).1
  · exact (claim_C1_atomic_claim 0 1 3 sampleRow rfl rfl (by decide)).2.1
  · exact (claim_C1_atomic_claim 0 1 3 sampleRow rfl rfl (by decide)).2.2
      (Executor.HandlerBehavior.raises "x") sampleJobInfo sampleRunningRow
      (by decide)

/-- Claim C2: after a FAILED or TIMEOUT write with current retry count r
and definition limit max_retry, the executor resets the row to PENDING if
and only if r + 1 < max_retry, and on that back-transition the retry count
becomes r + 1. -/
theorem claim_C2_retry_iff (now : Int) (eid : Nat) (msg : String)
    (max_retry r : Nat) (row : ExecutionRow)
    (hid : row.id = eid) (hr : row.retry_count = r) :
    ((Executor._fail_execution now eid msg max_retry r row).status = Status.pending
        ↔ r + 1 < max_retry) ∧
    (r + 1 < max_retry →
        (Executor._fail_execution now eid msg max_retry r row).retry_count = r + 1) ∧
    ((Executor._timeout_execution now eid max_retry r row).status = Status.pending
        ↔ r + 1 < max_retry) ∧
    (r + 1 < max_retry →
        (Executor._timeout_execution now eid max_retry r row).retry_count = r + 1) := by
  by_cases h : r + 1 < max_retry <;>
    simp [Executor._fail_execution, Executor._timeout_execution,
          Queries.fail_execution, Queries.timeout_execution,
          Queries.reset_to_pending, hid, hr, h]

/-- Witness for claim C2 at a concrete row with r = 0 and max_retry = 3. -/
theorem claim_C2_witness :
    sampleRow.id = 1 ∧ sampleRow.retry_count = 0 ∧
    (((Executor._fail_execution 0 1 "boom" 3 0 sampleRow).status = Status.pending
        ↔ 0 + 1 < 3) ∧
     (0 + 1 < 3 →
        (Executor._fail_execution 0 1 "boom" 3 0 sampleRow).retry_count = 0 + 1) ∧
     ((Executor._timeout_execution 0 1 3 0 sampleRow).status = Status.pending
        ↔ 0 + 1 < 3) ∧
     (0 + 1 < 3 →
        (Executor._timeout_execution 0 1 3 0 sampleRow).retry_count = 0 + 1)) :=
  ⟨rfl, rfl, claim_C2_retry_iff 0 1 "boom" 3 0 sampleRow rfl rfl⟩

/-- One cycle of a perpetually failing execution: the worker pool reads the
PENDING row (JobInfo carries the row fields, retry_count included) and
Executor.execute runs with a handler that raises. -/
def failingCycle (now : Int) (max_retry : Nat) (row : ExecutionRow) : ExecutionRow :=
  (Executor.execute now (Executor.HandlerBehavior.raises "boom")
    { id := row.id, job_id := row.job_id.getD 0,
      scheduled_time := row.scheduled_time, retry_count := row.retry_count,
      job_name := "sample", handler_name := "sample", handler_params := none,
      max_retry := max_retry, timeout_seconds := 10 } row).1

/-- Number of back-transitions to PENDING a perpetually failing execution
undergoes before its status stops being PENDING (fuel-bounded). -/
def retriesUntilTerminal (now : Int) (max_retry : Nat) : Nat → ExecutionRow → Nat
  | 0, _ => 0
  | fuel + 1, row =>
      let row1 := failingCycle now max_retry row
      if row1.status = Status.pending then
        1 + retriesUntilTerminal now max_retry fuel row1
      else
        0

/-- Final row of the perpetually failing run (fuel-bounded). -/
def runToTerminal (now : Int) (max_retry : Nat) : Nat → ExecutionRow → ExecutionRow
  | 0, row => row
  | fuel + 1, row =>
      let row1 := failingCycle now max_retry row
      if row1.status = Status.pending then
        runToTerminal now max_retry fuel row1
      else
        row1

theorem failingCycle_pending (now : Int) (mr : Nat) (row : ExecutionRow)
    (hp : row.status = Status.pending) :
    failingCycle now mr row =
      if row.retry_count + 1 < mr then
        { row with status := Status.pending, started_at := some now,
                   finished_at := some now, error_message := some "boom",
                   retry_count := row.retry_count + 1 }
      else
        { row with status := Status.failed, started_at := some now,
                   finished_at := some now, error_message := some "boom",
                   retry_count := row.retry_count + 1 } := by
  by_cases h : row.retry_count + 1 < mr <;>
    simp [failingCycle, Executor.execute, Queries.claim_execution, hp,
          Executor._fail_execution, Queries.fail_execution,
          Queries.reset_to_pending, h]

/-- Counterexample to claim C3: starting from a concrete PENDING row with
retry_count 0 and max_retry = 3, the perpetually failing execution
undergoes 2 back-transitions to PENDING, not 3. -/
theorem claim_C3_counterexample :
    retriesUntilTerminal 0 3 10 sampleRow = 2 ∧
    retriesUntilTerminal 0 3 10 sampleRow ≠ 3 := by
  constructor
  · rfl
  · decide

/-- Claim C3 (amended): for max_retry = 3 a perpetually failing execution
undergoes exactly 2 back-transitions to PENDING (max_retry − 1), after
which FAILED is terminal with retry_count = 3. -/
theorem claim_C3_amended (now : Int) (row : ExecutionRow) (fuel : Nat)
    (hp : row.status = Status.pending) (hr : row.retry_count = 0)
    (hf : 3 ≤ fuel) :
    retriesUntilTerminal now 3 fuel row = 2 ∧
    (runToTerminal now 3 fuel row).status = Status.failed ∧
    (runToTerminal now 3 fuel row).retry_count = 3 := by
  obtain ⟨k, rfl⟩ : ∃ k, fuel = k + 3 := ⟨fuel - 3, by omega⟩
  have h1 := failingCycle_pending now 3 row hp
  rw [hr] at h1
  norm_num at h1
  have h2 := failingCycle_pending now 3
    { row with status := Status.pending, started_at := some now,
               finished_at := some now, error_message := some "boom",
               retry_count := 1 } rfl
  norm_num at h2
  have h3 := failingCycle_pending now 3
    { row with status := Status.pending, started_at := some now,
               finished_at := some now, error_message := some "boom",
               retry_count := 2 } rfl
  norm_num at h3
  have e1 : k + 3 = (k + 2) + 1 := rfl
  have e2 : k + 2 = (k + 1) + 1 := rfl
  rw [e1]
  refine ⟨?_, ?_, ?_⟩ <;>
    simp [retriesUntilTerminal, runToTerminal, h1, h2, h3, e2]

/-- Witness for the amended claim C3 at a concrete PENDING row. -/
theorem claim_C3_witness :
    sampleRow.status = Status.pending ∧ sampleRow.retry_count = 0 ∧ (3:Nat) ≤ 3 ∧
    (retriesUntilTerminal 0 3 3 sampleRow = 2 ∧
     (runToTerminal 0 3 3 sampleRow).status = Status.failed ∧
     (runToTerminal 0 3 3 sampleRow).retry_count = 3) :=
  ⟨rfl, rfl, by decide, claim_C3_amended 0 sampleRow 3 rfl rfl (by decide)⟩

/-- Commands a TransactionContext issues to the underlying aiosqlite
connection (src/database/sqlite3/connection.py). -/
inductive ConnOp where
  | exec (sql : String)
  | execmany (sql : String) (rows : Nat)
  | commit
  | rollback
deriving DecidableEq, Repr

/-- State of a TransactionContext (src/database/sqlite3/connection.py
lines 55-146): the readonly flag, the in-transaction and manual-mode
flags, and the log of commands that reached the underlying connection. -/
structure TransactionContext where
  readonly : Bool
  in_transaction : Bool
  manual_mode : Bool
  conn_log : List ConnOp
deriving DecidableEq, Repr

namespace TransactionContext

/-- Write keywords of TransactionContext._is_write_query
(src/database/sqlite3/connection.py line 145). -/
def write_keywords : List String :=
  ["INSERT", "UPDATE", "DELETE", "CREATE", "DROP", "ALTER", "TRUNCATE"]

/-- Python str.strip() on character data: drop whitespace from both
ends. -/
def pyStrip (s : List Char) : List Char :=
  ((s.dropWhile Char.isWhitespace).reverse.dropWhile Char.isWhitespace).reverse

/-- Python str.upper() on character data. -/
def pyUpper (s : List Char) : List Char :=
  s.map Char.toUpper

/-- From TransactionContext._is_write_query (lines 142-146):
sql.strip().upper().startswith(write_keywords), embedded on character
data; the Python startswith over a tuple is a prefix test against each
keyword. -/
def _is_write_query (sql : String) : Bool :=
  let sql_upper := pyUpper (pyStrip sql.data)
  write_keywords.any fun k => k.data.isPrefixOf sql_upper

/-- From TransactionContext.execute (lines 107-117): under readonly a
write query raises ReadOnlyTransactionError before the statement reaches
the connection (the context and its connection log are unchanged);
otherwise the statement is executed on the connection. -/
def execute (ctx : TransactionContext) (sql : String) :
    TransactionContext × Except String Unit :=
  if ctx.readonly && _is_write_query sql then
    (ctx, Except.error "ReadOnlyTransactionError")
  else
    ({ ctx with conn_log := ctx.conn_log ++ [ConnOp.exec sql] }, Except.ok ())

/-- From TransactionContext.executemany (lines 119-126): same readonly
guard as execute, then a bulk execution on the connection. -/
def executemany (ctx : TransactionContext) (sql : String) (rows : Nat) :
    TransactionContext × Except String Unit :=
  if ctx.readonly && _is_write_query sql then
    (ctx, Except.error "ReadOnlyTransactionError")
  else
    ({ ctx with conn_log := ctx.conn_log ++ [ConnOp.execmany sql rows] }, Except.ok ())

/-- From TransactionContext.commit (lines 89-96): with no active
transaction it only logs a warning and returns; otherwise it commits on
the connection and clears the in-transaction flag. -/
def commit (ctx : TransactionContext) : TransactionContext :=
  if ctx.in_transaction then
    { ctx with in_transaction := false, conn_log := ctx.conn_log ++ [ConnOp.commit] }
  else
    ctx

/-- From TransactionContext.rollback (lines 98-105): with no active
transaction it only logs a warning and returns; otherwise it rolls back on
the connection and clears the in-transaction flag. -/
def rollback (ctx : TransactionContext) : TransactionContext :=
  if ctx.in_transaction then
    { ctx with in_transaction := false, conn_log := ctx.conn_log ++ [ConnOp.rollback] }
  else
    ctx

end TransactionContext

/-- Leading keyword of a SQL statement: the first maximal run of
non-whitespace characters after stripping and uppercasing. -/
def leadingKeyword (sql : String) : List Char :=
  (TransactionContext.pyUpper (TransactionContext.pyStrip sql.data)).takeWhile
    fun c => ¬ c.isWhitespace

theorem leadingKeyword_write (sql : String)
    (h : leadingKeyword sql ∈ TransactionContext.write_keywords.map String.data) :
    TransactionContext._is_write_query sql = true := by
  obtain ⟨k, hk, hkeq⟩ := List.mem_map.mp h
  unfold TransactionContext._is_write_query
  rw [List.any_eq_true]
  refine ⟨k, hk, ?_⟩
  rw [List.isPrefixOf_iff_prefix, hkeq]
  exact List.takeWhile_prefix _

/-- Claim C5: every SQL statement whose leading keyword (after stripping,
case-insensitively) is INSERT, UPDATE, DELETE, CREATE, DROP, ALTER or
TRUNCATE raises the distinct readonly error from execute and executemany
on a readonly TransactionContext, with the context and its connection
untouched; statements the write guard does not match pass through to the
connection. -/
theorem claim_C5_readonly (ctx : TransactionContext) (sql : String) (rows : Nat)
    (hro : ctx.readonly = true) :
    (leadingKeyword sql ∈ TransactionContext.write_keywords.map String.data →
       ctx.execute sql = (ctx, Except.error "ReadOnlyTransactionError") ∧
       ctx.executemany sql rows = (ctx, Except.error "ReadOnlyTransactionError")) ∧
    (TransactionContext._is_write_query sql = false →
       ctx.execute sql =
         ({ ctx with conn_log := ctx.conn_log ++ [ConnOp.exec sql] }, Except.ok ()) ∧
       ctx.executemany sql rows =
         ({ ctx with conn_log := ctx.conn_log ++ [ConnOp.execmany sql rows] },
          Except.ok ())) := by
  constructor
  · intro h
    have hw := leadingKeyword_write sql h
    simp [TransactionContext.execute, TransactionContext.executemany, hro, hw]
  · intro h
    simp [TransactionContext.execute, TransactionContext.executemany, hro, h]

/-- Concrete readonly context used by the witnesses. -/
def sampleReadonlyCtx : TransactionContext :=
  { readonly := true, in_transaction := true, manual_mode := false, conn_log := [] }

/-- Witness for claim C5 at a concrete readonly context, an INSERT
statement and a SELECT statement. -/
theorem claim_C5_witness :
    sampleReadonlyCtx.readonly = true ∧
    leadingKeyword "INSERT INTO t VALUES (1)" ∈
      TransactionContext.write_keywords.map String.data ∧
    sampleReadonlyCtx.execute "INSERT INTO t VALUES (1)" =
      (sampleReadonlyCtx, Except.error "ReadOnlyTransactionError") ∧
    TransactionContext._is_write_query "SELECT 1" = false ∧
    sampleReadonlyCtx.execute "SELECT 1" =
      ({ sampleReadonlyCtx with conn_log := [ConnOp.exec "SELECT 1"] },
       Except.ok ()) := by
  have hmem : leadingKeyword "INSERT INTO t VALUES (1)" ∈
      TransactionContext.write_keywords.map String.data := by decide
  have hsel : TransactionContext._is_write_query "SELECT 1" = false := by decide
  refine ⟨rfl, hmem, ?_, hsel, ?_⟩
  · exact ((claim_C5_readonly sampleReadonlyCtx "INSERT INTO t VALUES (1)" 0 rfl).1 hmem).1
  · exact ((claim_C5_readonly sampleReadonlyCtx "SELECT 1" 0 rfl).2 hsel).1

/-- Claim C9: with no active transaction, commit and rollback are
idempotent no-ops: nothing is issued to the connection and the whole
context state is unchanged; consequently any repetition of commit or
rollback after a transaction has ended has no effect. -/
theorem claim_C9_idempotent (ctx : TransactionContext)
    (h : ctx.in_transaction = false) :
    ctx.commit = ctx ∧ ctx.rollback = ctx ∧
    ∀ ctx' : TransactionContext,
      ctx'.commit.commit = ctx'.commit ∧
      ctx'.commit.rollback = ctx'.commit ∧
      ctx'.rollback.commit = ctx'.rollback ∧
      ctx'.rollback.rollback = ctx'.rollback := by
  refine ⟨?_, ?_, ?_⟩
  · simp [TransactionContext.commit, h]
  · simp [TransactionContext.rollback, h]
  · intro ctx'
    by_cases h' : ctx'.in_transaction = true <;>
      simp [TransactionContext.commit, TransactionContext.rollback, h']

/-- Concrete idle context used by the claim C9 witness. -/
def sampleIdleCtx : TransactionContext :=
  { readonly := false, in_transaction := false, manual_mode := true,
    conn_log := [ConnOp.exec "BEGIN IMMEDIATE", ConnOp.commit] }

/-- Witness for claim C9 at a concrete context with no active
transaction. -/
theorem claim_C9_witness :
    sampleIdleCtx.in_transaction = false ∧
    sampleIdleCtx.commit = sampleIdleCtx ∧
    sampleIdleCtx.rollback = sampleIdleCtx ∧
    sampleIdleCtx.commit.commit = sampleIdleCtx.commit := by
  have h := claim_C9_idempotent sampleIdleCtx rfl
  exact ⟨rfl, h.1, h.2.1, (h.2.2 sampleIdleCtx).1⟩

/-- Outcome of the user function run inside the transaction decorator: it
returns normally after issuing the given writes, or raises the given error
after issuing them. -/
inductive FnOutcome where
  | returns (writes : List String)
  | raises (writes : List String) (err : String)
deriving DecidableEq, Repr

/-- Observable world around one managed transaction: the durably committed
writes of the database, the number of available pooled connections, and
the db names bound in the ambient registry. -/
structure World where
  committed : List String
  pool_available : Nat
  bound : List String
deriving DecidableEq, Repr

/-- From ManagedTransaction.__aenter__ and __aexit__
(src/database/sqlite3/connection.py lines 327-348), which the transaction
decorator runs the wrapped function inside. Modelled from the spec where
the source is absent from src/: the decorator itself (spec section 4.3)
and the ambient registry set_connection and clear_connection of
database/context.py (spec section 4.2). Entry acquires a connection,
begins the transaction and binds the registry; exit commits on normal
return or rolls back on error, clears the binding, releases the
connection, and re-raises the original error. -/
def transactional_run (db_name : String) (f : FnOutcome) (w : World) :
    World × Except String Unit :=
  let entered : World :=
    { w with pool_available := w.pool_available - 1,
             bound := db_name :: w.bound }
  match f with
  | FnOutcome.returns writes =>
      ({ entered with committed := entered.committed ++ writes,
                      bound := (db_name :: w.bound).erase db_name,
                      pool_available := entered.pool_available + 1 },
       Except.ok ())
  | FnOutcome.raises _ err =>
      ({ entered with bound := (db_name :: w.bound).erase db_name,
                      pool_available := entered.pool_available + 1 },
       Except.error err)

/-- Claim C4: a decorated function that raises after issuing writes is
rolled back: none of its writes persist, the connection returns to the
pool, the ambient binding for the database name is cleared, and the
original error is re-raised, so the world is exactly as before the call; a
function that returns normally has its writes committed. -/
theorem claim_C4_rollback (w : World) (db_name err : String)
    (writes : List String) (h : 1 ≤ w.pool_available) :
    transactional_run db_name (FnOutcome.raises writes err) w =
      (w, Except.error err) ∧
    transactional_run db_name (FnOutcome.returns writes) w =
      ({ w with committed := w.committed ++ writes }, Except.ok ()) := by
  obtain ⟨c, p, b⟩ := w
  simp only [transactional_run, List.erase_cons_head]
  constructor <;> simp_all

/-- Concrete world used by the claim C4 witness. -/
def sampleWorld : World :=
  { committed := ["INSERT a"], pool_available := 2, bound := [] }

/-- Witness for claim C4 at a concrete world and write list. -/
theorem claim_C4_witness :
    (1:Nat) ≤ sampleWorld.pool_available ∧
    transactional_run "default" (FnOutcome.raises ["INSERT b"] "boom") sampleWorld =
      (sampleWorld, Except.error "boom") ∧
    transactional_run "default" (FnOutcome.returns ["INSERT b"]) sampleWorld =
      ({ sampleWorld with committed := sampleWorld.committed ++ ["INSERT b"] },
       Except.ok ()) := by
  have h := claim_C4_rollback sampleWorld "default" "boom" ["INSERT b"] (by decide)
  exact ⟨by decide, h.1, h.2⟩

namespace Dispatcher

/-- Modelled from the spec: SQL query has_incomplete_execution of
dispatcher/sql/dispatcher.sql, absent from src/; spec section 4.4 step d:
a row exists with job_id = def.id AND status IN (PENDING, RUNNING). The
source checks whether the fetch found a row
(src/dispatcher/main.py lines 321-338). -/
def has_incomplete_execution (job_id : Nat) (table : List ExecutionRow) : Bool :=
  table.any fun r =>
    decide (r.job_id = some job_id ∧
      (r.status = Status.pending ∨ r.status = Status.running))

/-- Modelled from the spec: SQL query create_execution_if_not_exists of
dispatcher/sql/dispatcher.sql, absent from src/; spec sections 4.4 step e
and 6: INSERT of a PENDING row guarded by ON CONFLICT DO NOTHING under
UNIQUE(job_id, scheduled_time). The store-assigned id is modelled as one
past the table length. -/
def create_execution_if_not_exists (job_id : Nat) (scheduled_time : Int)
    (table : List ExecutionRow) : List ExecutionRow :=
  if table.any fun r =>
      decide (r.job_id = some job_id ∧ r.scheduled_time = scheduled_time) then
    table
  else
    table ++ [{ id := table.length + 1, job_id := some job_id,
                scheduled_time := scheduled_time, status := Status.pending,
                started_at := none, finished_at := none, retry_count := 0,
                error_message := none, result := none }]

/-- From Dispatcher._should_run (src/dispatcher/main.py lines 229-256),
with croniter.get_prev abstracted as the input `prev` (the previous fire
time the cron library computes for the expression, a value ≤ now):
emission is due when now − prev ≤ poll_interval_seconds, and the due pair
carries prev as the scheduled time. -/
def _should_run (poll_interval_seconds : Int) (now prev : Int) :
    Bool × Option Int :=
  if now - prev ≤ poll_interval_seconds then (true, some prev)
  else (false, none)

/-- From Dispatcher._process_cron_job (src/dispatcher/main.py lines
179-227) acting on the executions table: the cron interval validation is
abstracted as `interval_ok` (a parse or interval error is caught and
creates nothing), then due-ness is judged, the overlap check runs when
allow_overlap is false, and the PENDING row is inserted with ON CONFLICT
DO NOTHING. -/
def _process_cron_job (poll_interval_seconds : Int) (interval_ok : Bool)
    (now prev : Int) (job : CronJob) (table : List ExecutionRow) :
    List ExecutionRow :=
  if interval_ok then
    match _should_run poll_interval_seconds now prev with
    | (true, some t) =>
        if !job.allow_overlap && has_incomplete_execution job.id table then
          table
        else
          create_execution_if_not_exists job.id t table
    | _ => table
  else
    table

end Dispatcher

/-- Claim C6: for a cron definition with allow_overlap = false, if an
execution row with the same job_id and status PENDING or RUNNING exists
when an emission is processed, the dispatcher creates no new execution row
for that definition in that poll cycle. -/
theorem claim_C6_overlap (pi : Int) (iok : Bool) (now prev : Int)
    (job : CronJob) (table : List ExecutionRow)
    (hov : job.allow_overlap = false)
    (r : ExecutionRow) (hmem : r ∈ table) (hjid : r.job_id = some job.id)
    (hst : r.status = Status.pending ∨ r.status = Status.running) :
    Dispatcher._process_cron_job pi iok now prev job table = table := by
  have hinc : Dispatcher.has_incomplete_execution job.id table = true := by
    rw [Dispatcher.has_incomplete_execution, List.any_eq_true]
    exact ⟨r, hmem, by simp [hjid, hst]⟩
  unfold Dispatcher._process_cron_job Dispatcher._should_run
  by_cases hdue : now - prev ≤ pi <;> cases iok <;> simp [hov, hinc, hdue]

/-- Concrete cron definition with allow_overlap = false used by the claim
C6 witness. -/
def sampleNoOverlapJob : CronJob :=
  { id := 7, name := "d2", cron_expression := "* * * * *",
    handler_name := "sample", handler_params := none, is_enabled := true,
    allow_overlap := false, max_retry := 3, timeout_seconds := 60 }

/-- Witness for claim C6: a PENDING row for job 7 exists, so processing the
definition leaves the table unchanged. -/
theorem claim_C6_witness :
    sampleNoOverlapJob.allow_overlap = false ∧
    sampleRow ∈ [sampleRow] ∧
    sampleRow.job_id = some sampleNoOverlapJob.id ∧
    (sampleRow.status = Status.pending ∨ sampleRow.status = Status.running) ∧
    Dispatcher._process_cron_job 60 true 90 60 sampleNoOverlapJob [sampleRow] =
      [sampleRow] :=
  ⟨rfl, by simp, rfl, Or.inl rfl,
   claim_C6_overlap 60 true 90 60 sampleNoOverlapJob [sampleRow] rfl
     sampleRow (by simp) rfl (Or.inl rfl)⟩

/-- Claim C7: with the previous fire time prev ≤ now computed by the cron
library, the dispatcher judges emission due exactly when now − prev ≤
poll_interval_seconds, the due judgement carries prev, and the inserted
PENDING row stores scheduled_time = prev (not now). -/
theorem claim_C7_due_and_prev (pi now prev : Int) (job : CronJob)
    (table : List ExecutionRow) (hprev : prev ≤ now) :
    ((Dispatcher._should_run pi now prev).1 = true ↔ now - prev ≤ pi) ∧
    ((Dispatcher._should_run pi now prev).1 = true →
       (Dispatcher._should_run pi now prev).2 = some prev ∧
       now - pi ≤ prev ∧ prev ≤ now) ∧
    (now - prev ≤ pi →
     job.allow_overlap = true →
     (∀ r ∈ table, ¬(r.job_id = some job.id ∧ r.scheduled_time = prev)) →
     Dispatcher._process_cron_job pi true now prev job table =
       table ++ [{ id := table.length + 1, job_id := some job.id,
                   scheduled_time := prev, status := Status.pending,
                   started_at := none, finished_at := none, retry_count := 0,
                   error_message := none, result := none }]) := by
  refine ⟨?_, ?_, ?_⟩
  · by_cases hdue : now - prev ≤ pi <;> simp [Dispatcher._should_run, hdue]
  · intro hd
    have hdue : now - prev ≤ pi := by
      by_contra hc
      simp [Dispatcher._should_run, hc] at hd
    simp [Dispatcher._should_run, hdue]
    omega
  · intro hdue hov hno
    have hnone : (table.any fun r =>
        decide (r.job_id = some job.id ∧ r.scheduled_time = prev)) = false := by
      rw [List.any_eq_false]
      intro r hr
      simpa using hno r hr
    simp [Dispatcher._process_cron_job, Dispatcher._should_run, hdue, hov,
          Dispatcher.create_execution_if_not_exists, hnone]
    exact fun r hr hj hs => hno r hr ⟨hj, hs⟩

/-- Concrete cron definition with allow_overlap = true used by the claim
C7 witness. -/
def sampleOverlapJob : CronJob :=
  { sampleNoOverlapJob with id := 9, name := "d1", allow_overlap := true }

/-- Witness for claim C7: at now = 90 and prev = 60 with poll interval 60,
emission is due and the created row stores scheduled_time = 60. -/
theorem claim_C7_witness :
    (60:Int) ≤ 90 ∧
    ((Dispatcher._should_run 60 90 60).1 = true ↔ (90:Int) - 60 ≤ 60) ∧
    Dispatcher._process_cron_job 60 true 90 60 sampleOverlapJob [] =
      [{ id := 1, job_id := some sampleOverlapJob.id, scheduled_time := 60,
         status := Status.pending, started_at := none, finished_at := none,
         retry_count := 0, error_message := none, result := none }] := by
  have h := claim_C7_due_and_prev 60 90 60 sampleOverlapJob [] (by decide)
  exact ⟨by decide, h.1,
    by simpa using h.2.2 (by decide) rfl (by intro r hr; simp at hr)⟩

namespace QueueDispatcher

/-- Queue message (src/dispatcher/queue/model/queue.py QueueMessage):
handler_name, params object, optional job_id. JSON params are modelled as
association lists. -/
structure QueueMessage where
  handler_name : String
  params : List (String × Nat)
  job_id : Option Nat
deriving DecidableEq, Repr

/-- Cron definition row as the queue dispatcher reads it: id, handler_name
and the stored handler_params object (parsed). -/
structure CronRow where
  id : Nat
  handler_name : String
  handler_params : Option (List (String × Nat))
deriving DecidableEq, Repr

/-- Modelled from the spec: SQL query get_job_by_handler_name of
dispatcher/queue/sql/queue_dispatcher.sql, absent from src/; spec section
4.5 step 2: look up a cron definition by handler_name
(src/dispatcher/queue/main.py lines 165-175 wraps the fetched row). -/
def _get_job_by_handler (cron_jobs : List CronRow) (handler_name : String) :
    Option CronRow :=
  cron_jobs.find? fun j => j.handler_name == handler_name

/-- Model of the Python dict merge of base and event params with the event
entries overriding the base on key collisions: base entries whose key does
not occur in the event, in base order, followed by the event entries. -/
def mergeParams (base event : List (String × Nat)) : List (String × Nat) :=
  (base.filter fun p => !(event.any fun q => q.1 == p.1)) ++ event

/-- Python truthiness of the optional integer job_id: None and 0 are
falsy. The source guards the lookup with `if not job_id`
(src/dispatcher/queue/main.py line 144). -/
def pyFalsy : Option Nat → Bool
  | none => true
  | some n => n == 0

/-- Data of the execution row QueueDispatcher._create_event_execution
receives. -/
structure MessageOutcome where
  job_id : Option Nat
  handler_name : String
  params : List (String × Nat)
deriving DecidableEq, Repr

/-- From QueueDispatcher._process_message (src/dispatcher/queue/main.py
lines 130-158): base_params starts empty and job_id starts as the message
value; the cron lookup runs only when the message job_id is Python-falsy,
a found definition contributes its id and its stored handler_params (or
empty); the created execution carries the merged params with the message
values overriding the base. -/
def _process_message (cron_jobs : List CronRow) (msg : QueueMessage) :
    MessageOutcome :=
  let looked :=
    if pyFalsy msg.job_id then
      match _get_job_by_handler cron_jobs msg.handler_name with
      | some job => (some job.id, job.handler_params.getD [])
      | none => (msg.job_id, ([] : List (String × Nat)))
    else
      (msg.job_id, ([] : List (String × Nat)))
  { job_id := looked.1, handler_name := msg.handler_name,
    params := mergeParams looked.2 msg.params }

theorem lookup_of_no_key (l : List (String × Nat)) (k : String)
    (h : (l.any fun q => q.1 == k) = false) : l.lookup k = none := by
  induction l with
  | nil => rfl
  | cons q rest ih =>
      obtain ⟨k1, v1⟩ := q
      rw [List.any_cons] at h
      rw [Bool.or_eq_false_iff] at h
      have hkf : (k == k1) = false := by
        rw [beq_eq_false_iff_ne] at h ⊢
        exact fun he => h.1 he.symm
      simp [List.lookup_cons, hkf, ih h.2]

theorem lookup_some_of_key (l : List (String × Nat)) (k : String)
    (h : (l.any fun q => q.1 == k) = true) : ∃ v, l.lookup k = some v := by
  induction l with
  | nil => simp at h
  | cons q rest ih =>
      obtain ⟨k1, v1⟩ := q
      rw [List.any_cons] at h
      cases hk : (k == k1) with
      | true => exact ⟨v1, by simp [List.lookup_cons, hk]⟩
      | false =>
          have h1 : (k1 == k) = false := by
            rw [beq_eq_false_iff_ne] at hk ⊢
            exact fun he => hk he.symm
          rw [h1] at h
          simp only [Bool.false_or] at h
          obtain ⟨v, hv⟩ := ih h
          exact ⟨v, by simp [List.lookup_cons, hk, hv]⟩

theorem lookup_mergeParams (base event : List (String × Nat)) (k : String) :
    (mergeParams base event).lookup k =
      (event.lookup k).orElse fun _ => base.lookup k := by
  induction base with
  | nil =>
      cases he : event.lookup k <;> simp [mergeParams, Option.orElse, he]
  | cons p rest ih =>
      obtain ⟨k1, v1⟩ := p
      cases hev : (event.any fun q => q.1 == k1) with
      | true =>
          have hmerge : mergeParams ((k1, v1) :: rest) event
              = mergeParams rest event := by
            simp [mergeParams, List.filter_cons, hev]
          rw [hmerge, ih]
          cases hk : (k == k1) with
          | true =>
              have hkk : k = k1 := by rwa [beq_iff_eq] at hk
              obtain ⟨v, hv⟩ := lookup_some_of_key event k (hkk ▸ hev)
              simp [hv, Option.orElse]
          | false =>
              simp [List.lookup_cons, hk]
      | false =>
          have hmerge : mergeParams ((k1, v1) :: rest) event
              = (k1, v1) :: mergeParams rest event := by
            simp [mergeParams, List.filter_cons, hev]
          rw [hmerge]
          cases hk : (k == k1) with
          | true =>
              have hkk : k = k1 := by rwa [beq_iff_eq] at hk
              have hnone : event.lookup k = none :=
                lookup_of_no_key event k (hkk ▸ hev)
              simp [List.lookup_cons, hk, hnone, Option.orElse]
          | false =>
              simp [List.lookup_cons, hk, ih]

/-- Concrete stored cron definition used by the claim C8 counterexample
and witness. -/
def sampleCronRow : CronRow :=
  { id := 7, handler_name := "h", handler_params := some [("a", 1)] }

/-- Concrete message carrying the explicit job_id 0. -/
def sampleMsgZero : QueueMessage :=
  { handler_name := "h", params := [("b", 2)], job_id := some 0 }

end QueueDispatcher

/-- Counterexample to claim C8: a message carrying the explicit job_id 0
does not skip the lookup and does not keep its job_id or its params alone:
the source guards the lookup with Python truthiness (if not job_id), so
job_id 0 takes the lookup path and adopts the stored definition id 7 and
the merged params. -/
theorem claim_C8_counterexample :
    (QueueDispatcher._process_message [QueueDispatcher.sampleCronRow]
        QueueDispatcher.sampleMsgZero).job_id = some 7 ∧
    (QueueDispatcher._process_message [QueueDispatcher.sampleCronRow]
        QueueDispatcher.sampleMsgZero).job_id ≠ some 0 ∧
    (QueueDispatcher._process_message [QueueDispatcher.sampleCronRow]
        QueueDispatcher.sampleMsgZero).params =
      [("a", 1), ("b", 2)] ∧
    (QueueDispatcher._process_message [QueueDispatcher.sampleCronRow]
        QueueDispatcher.sampleMsgZero).params ≠
      QueueDispatcher.sampleMsgZero.params := by
  refine ⟨rfl, by decide, rfl, by decide⟩

/-- Claim C8 (amended): a message without a job_id or with the falsy
job_id 0 takes the lookup path: when its handler_name matches a stored
cron definition the created execution adopts that definition id and its
params are the stored handler_params (base) merged with the message
params, message values overriding the base on key collisions; a message
carrying an explicit non-zero job_id skips the lookup and uses the message
params alone. -/
theorem claim_C8_amended (cron_jobs : List QueueDispatcher.CronRow)
    (msg : QueueDispatcher.QueueMessage) :
    (∀ j : Nat, msg.job_id = some j → j ≠ 0 →
       (QueueDispatcher._process_message cron_jobs msg).job_id = some j ∧
       (QueueDispatcher._process_message cron_jobs msg).params = msg.params) ∧
    ((msg.job_id = none ∨ msg.job_id = some 0) →
       ∀ job, QueueDispatcher._get_job_by_handler cron_jobs msg.handler_name
           = some job →
         (QueueDispatcher._process_message cron_jobs msg).job_id = some job.id ∧
         (QueueDispatcher._process_message cron_jobs msg).params =
           QueueDispatcher.mergeParams (job.handler_params.getD []) msg.params ∧
         ∀ k : String,
           ((QueueDispatcher._process_message cron_jobs msg).params).lookup k =
             (msg.params.lookup k).orElse
               fun _ => (job.handler_params.getD []).lookup k) := by
  constructor
  · intro j hj hj0
    have hfalsy : QueueDispatcher.pyFalsy (some j) = false := by
      simp [QueueDispatcher.pyFalsy, hj0]
    constructor
    · simp [QueueDispatcher._process_message, hj, hfalsy]
    · simp [QueueDispatcher._process_message, hj, hfalsy,
            QueueDispatcher.mergeParams]
  · intro hfal job hjob
    have hfalsy : QueueDispatcher.pyFalsy msg.job_id = true := by
      rcases hfal with h | h <;> simp [QueueDispatcher.pyFalsy, h]
    refine ⟨?_, ?_, ?_⟩
    · simp [QueueDispatcher._process_message, hfalsy, hjob]
    · simp [QueueDispatcher._process_message, hfalsy, hjob]
    · intro k
      simp only [QueueDispatcher._process_message, hfalsy, hjob, if_true]
      exact QueueDispatcher.lookup_mergeParams _ _ k

/-- Witness for the amended claim C8: a message with no job_id merges the
stored base params with its own, and a message with job_id 3 keeps its own
params. -/
theorem claim_C8_witness :
    (QueueDispatcher._get_job_by_handler [QueueDispatcher.sampleCronRow] "h"
       = some QueueDispatcher.sampleCronRow) ∧
    (QueueDispatcher._process_message [QueueDispatcher.sampleCronRow]
        { handler_name := "h", params := [("b", 2)], job_id := none }).job_id
      = some QueueDispatcher.sampleCronRow.id ∧
    (QueueDispatcher._process_message [QueueDispatcher.sampleCronRow]
        { handler_name := "h", params := [("b", 2)], job_id := none }).params
      = QueueDispatcher.mergeParams
          (QueueDispatcher.sampleCronRow.handler_params.getD []) [("b", 2)] ∧
    (QueueDispatcher._process_message [QueueDispatcher.sampleCronRow]
        { handler_name := "h", params := [("b", 2)], job_id := some 3 }).job_id
      = some 3 ∧
    (QueueDispatcher._process_message [QueueDispatcher.sampleCronRow]
        { handler_name := "h", params := [("b", 2)], job_id := some 3 }).params
      = [("b", 2)] := by
  have hfind : QueueDispatcher._get_job_by_handler
      [QueueDispatcher.sampleCronRow] "h" = some QueueDispatcher.sampleCronRow := by
    decide
  have h1 := (claim_C8_amended [QueueDispatcher.sampleCronRow]
      { handler_name := "h", params := [("b", 2)], job_id := none }).2
      (Or.inl rfl) QueueDispatcher.sampleCronRow hfind
  have h2 := (claim_C8_amended [QueueDispatcher.sampleCronRow]
      { handler_name := "h", params := [("b", 2)], job_id := some 3 }).1
      3 rfl (by decide)
  exact ⟨hfind, h1.1, h1.2.1, h2.1, h2.2⟩

/-- Committed row states other tasks can observe around one call of
Executor._fail_execution: the transactional decorator (spec section 4.3;
database/transaction.py is absent from src/) wraps the whole method in one
transaction on a single connection (ManagedTransaction,
src/database/sqlite3/connection.py), so the FAILED write and the reset to
PENDING commit together and only the pre-call and post-call rows are ever
durable. -/
def fail_committed_states (now : Int) (eid : Nat) (msg : String)
    (max_retry current_retry : Nat) (row : ExecutionRow) : List ExecutionRow :=
  [row, Executor._fail_execution now eid msg max_retry current_retry row]

/-- Committed row states other tasks can observe around one call of
Executor._timeout_execution; same single-transaction modelling as
fail_committed_states. -/
def timeout_committed_states (now : Int) (eid : Nat)
    (max_retry current_retry : Nat) (row : ExecutionRow) : List ExecutionRow :=
  [row, Executor._timeout_execution now eid max_retry current_retry row]

/-- Claim C10: because the FAILED (or TIMEOUT) write and the reset to
PENDING happen in the single transaction of _fail_execution (resp.
_timeout_execution), an execution with retry budget remaining never
exposes a committed FAILED (resp. TIMEOUT) status: the committed status
after the call is PENDING when budget remains and the terminal status only
when it is exhausted. -/
theorem claim_C10_atomic_retry (now : Int) (eid : Nat) (msg : String)
    (mr cr : Nat) (row : ExecutionRow)
    (hid : row.id = eid) (hs : row.status = Status.running) :
    (cr + 1 < mr →
       (∀ r ∈ fail_committed_states now eid msg mr cr row,
          r.status ≠ Status.failed) ∧
       (∀ r ∈ timeout_committed_states now eid mr cr row,
          r.status ≠ Status.timeout) ∧
       (Executor._fail_execution now eid msg mr cr row).status = Status.pending ∧
       (Executor._timeout_execution now eid mr cr row).status = Status.pending) ∧
    (¬ cr + 1 < mr →
       (Executor._fail_execution now eid msg mr cr row).status = Status.failed ∧
       (Executor._timeout_execution now eid mr cr row).status = Status.timeout) := by
  by_cases h : cr + 1 < mr <;>
    simp [fail_committed_states, timeout_committed_states,
          Executor._fail_execution, Executor._timeout_execution,
          Queries.fail_execution, Queries.timeout_execution,
          Queries.reset_to_pending, hid, hs, h]

/-- Witness for claim C10 at a concrete RUNNING row with retry budget
remaining (cr = 0, mr = 3) and exhausted (cr = 2, mr = 3). -/
theorem claim_C10_witness :
    sampleRunningRow.id = 1 ∧ sampleRunningRow.status = Status.running ∧
    (0 + 1 < 3 →
       (∀ r ∈ fail_committed_states 0 1 "boom" 3 0 sampleRunningRow,
          r.status ≠ Status.failed) ∧
       (∀ r ∈ timeout_committed_states 0 1 3 0 sampleRunningRow,
          r.status ≠ Status.timeout) ∧
       (Executor._fail_execution 0 1 "boom" 3 0 sampleRunningRow).status
         = Status.pending ∧
       (Executor._timeout_execution 0 1 3 0 sampleRunningRow).status
         = Status.pending) ∧
    (¬ 2 + 1 < 3 →
       (Executor._fail_execution 0 1 "boom" 3 2 sampleRunningRow).status
         = Status.failed ∧
       (Executor._timeout_execution 0 1 3 2 sampleRunningRow).status
         = Status.timeout) :=
  ⟨rfl, rfl,
   (claim_C10_atomic_retry 0 1 "boom" 3 0 sampleRunningRow rfl rfl).1,
   (claim_C10_atomic_retry 0 1 "boom" 3 2 sampleRunningRow rfl rfl).2⟩

end Jobu
